import Mathlib

/-
Verification development for the agent-simulation backend
(src/main.py, src/agent_core.py, src/redis_client.py, src/mongodb_client.py).

The Python code is shallowly embedded: classes become structures, in-place
mutation becomes explicit state passing, the ambient wall clock and the
external LLM endpoint become explicit parameters, and Python exceptions
inside a simulation step become an explicit error component threaded through
the step.  Dictionaries decoded from JSON keep optional fields so that a
missing key models a Python KeyError at the access site.
-/

/- ===================== Wall-clock timestamps ======================
   Models datetime.now().strftime("%H:%M:%S") used by add_memory in
   agent_core.py (lines 67 and 187).  strftime zero-pads each field. -/

structure TimeHMS where
  hour : Nat
  minute : Nat
  second : Nat
deriving DecidableEq, Repr

def pad2 (n : Nat) : String :=
  if n < 10 then "0" ++ toString n else toString n

def TimeHMS.fmt (t : TimeHMS) : String :=
  pad2 t.hour ++ ":" ++ pad2 t.minute ++ ":" ++ pad2 t.second

/-- The string actually appended to an agent memory log:
    f"[\x7bdatetime.now().strftime('%H:%M:%S')\x7d] \x7bmemory\x7d"
    (agent_core.py lines 67 and 187). -/
def stampMemory (now : TimeHMS) (memory : String) : String :=
  "[" ++ now.fmt ++ "] " ++ memory

/-- Shared body of CybersecurityAgent.add_memory (cap 50, agent_core.py
    lines 65-70) and CodeGeneratorAgent.add_memory (cap 20, lines 185-189):
    append the timestamped entry, then truncate to the last cap entries
    (Python: self.memories = self.memories[-cap:] when the length
    exceeds cap). -/
def addMemoryCapped (cap : Nat) (memories : List String)
    (now : TimeHMS) (memory : String) : List String :=
  let ms := memories ++ [stampMemory now memory]
  if ms.length > cap then ms.drop (ms.length - cap) else ms

/- ===================== Python string helpers ====================== -/

/-- Python str.startswith, computed on the character list. -/
def pyStartsWith (s pre : String) : Bool :=
  decide (s.data.take pre.data.length = pre.data)

/-- Python slice s[:n], computed on the character list. -/
def pyTake (s : String) (n : Nat) : String := String.mk (s.data.take n)

/-- Python str.strip(): remove leading and trailing whitespace,
    computed on the character list. -/
def stripChars (cs : List Char) : List Char :=
  ((cs.dropWhile Char.isWhitespace).reverse.dropWhile Char.isWhitespace).reverse

def pyStrip (s : String) : String := String.mk (stripChars s.data)

/-- First index of a character, as Python str.find: the index, or -1. -/
def pyFindAux (c : Char) : List Char → Option Nat
  | [] => none
  | x :: xs => if x = c then some 0 else (pyFindAux c xs).map (· + 1)

def pyFind (cs : List Char) (c : Char) : Int :=
  match pyFindAux c cs with
  | some n => (n : Int)
  | none => -1

/-- Last index of a character, as Python str.rfind: the index, or -1. -/
def pyRfindAux (c : Char) : List Char → Option Nat
  | [] => none
  | x :: xs =>
    match pyRfindAux c xs with
    | some n => some (n + 1)
    | none => if x = c then some 0 else none

def pyRfind (cs : List Char) (c : Char) : Int :=
  match pyRfindAux c cs with
  | some n => (n : Int)
  | none => -1

/-- Python slice s[a:b] for nonnegative bounds (clamping semantics). -/
def pySlice (cs : List Char) (a b : Nat) : List Char :=
  (cs.take b).drop a

/- ===================== Analyzer agent (agent_core.py 22-152) ====== -/

structure CybersecurityAgent where
  name : String
  role_description : String
  current_action : String
  memories : List String
  findings : List String
  current_task_id : Option String
deriving DecidableEq, Repr

/-- self.memories[-k:] for the positive k used in the source (k = 3). -/
def CybersecurityAgent.get_memories (a : CybersecurityAgent) (k : Nat := 3) :
    List String :=
  a.memories.drop (a.memories.length - k)

/-- CybersecurityAgent.add_memory (agent_core.py 65-70); the ambient
    datetime.now() is passed explicitly. -/
def CybersecurityAgent.add_memory (a : CybersecurityAgent)
    (now : TimeHMS) (memory : String) : CybersecurityAgent :=
  { a with memories := addMemoryCapped 50 a.memories now memory }

/-- Outcome of the LM Studio HTTP call made by the analyzer
    (agent_core.py 120-152): a successful response carrying
    choices[0].message.content, a response with no usable choices, a
    timeout, a requests error, or any other exception. -/
inductive LLMOutcome where
  | success (content : String)
  | noChoices
  | timeout
  | requestError (e : String)
  | otherError (e : String)
deriving DecidableEq, Repr

/-- CybersecurityAgent.perform_task (agent_core.py 72-152).  The LLM
    endpoint is abstracted as the outcome its call would produce; the
    prompt construction has no observable effect beyond that call and is
    not modelled.  Returns the mutated agent and the result string. -/
def CybersecurityAgent.perform_task (a : CybersecurityAgent)
    (llm : LLMOutcome) (task_description_specific : String)
    (target_context : String) (now : TimeHMS) :
    CybersecurityAgent × String :=
  let a := { a with
    current_action :=
      "Analyzing task: " ++ pyTake task_description_specific 50 ++ "...",
    findings := [] }
  if target_context = "" then
    (a.add_memory now "Skipped task: No target context provided.",
     "Error: No target context provided for analysis.")
  else
    match llm with
    | LLMOutcome.success content =>
        let analysis_result := pyStrip content
        let a := a.add_memory now
          ("Analysis complete. Result snippet: " ++
            pyTake analysis_result 100 ++ "...")
        ({ a with findings := a.findings ++ [analysis_result] },
         analysis_result)
    | LLMOutcome.noChoices =>
        (a.add_memory now "Error: Unexpected response format from LLM.",
         "Error: Could not parse LLM response.")
    | LLMOutcome.timeout =>
        (a.add_memory now "Error: LLM request timed out.",
         "Error: LLM request timed out.")
    | LLMOutcome.requestError e =>
        (a.add_memory now ("Error: LLM connection failed - " ++ e),
         "Error: Failed to connect to LLM - " ++ e)
    | LLMOutcome.otherError e =>
        (a.add_memory now ("Error: Unexpected analysis error - " ++ e),
         "Error: An unexpected analysis error occurred - " ++ e)

/- ===================== JSON decoding model =======================
   Models Python json.loads as used by CodeGeneratorAgent.perform_task
   (agent_core.py 235) on the JSON fragment relevant here: objects,
   arrays, strings with standard escapes, numbers kept as their lexeme,
   true/false/null.  As in json.loads, an unescaped control character
   (code point below 32) inside a string literal is a decode error, and
   trailing non-whitespace after the value is a decode error.  Numbers
   are accepted slightly more liberally than strict JSON (leading-zero
   shapes), which no claim depends on. -/

inductive JsonValue where
  | null
  | bool (b : Bool)
  | num (lexeme : String)
  | str (s : String)
  | arr (elems : List JsonValue)
  | obj (fields : List (String × JsonValue))

def lbrace : Char := '\x7b'
def rbrace : Char := '\x7d'

def isJsonWs (c : Char) : Bool :=
  c = ' ' || c = '\t' || c = '\n' || c = '\r'

def skipWs (cs : List Char) : List Char :=
  cs.dropWhile isJsonWs

def hexDigitVal (c : Char) : Option Nat :=
  if '0' ≤ c ∧ c ≤ '9' then some (c.toNat - '0'.toNat)
  else if 'a' ≤ c ∧ c ≤ 'f' then some (c.toNat - 'a'.toNat + 10)
  else if 'A' ≤ c ∧ c ≤ 'F' then some (c.toNat - 'A'.toNat + 10)
  else none

/-- Body of a JSON string literal after the opening quote; returns the
    decoded characters and the input remaining after the closing quote.
    Fuelled recursion; the fuel is always at least the input length. -/
def parseStringBody : Nat → List Char → Option (List Char × List Char)
  | 0, _ => none
  | _, [] => none
  | fuel + 1, c :: cs =>
    if c = '"' then some ([], cs)
    else if c = '\\' then
      match cs with
      | [] => none
      | e :: cs1 =>
        let dec : Option (Char × List Char) :=
          if e = '"' then some ('"', cs1)
          else if e = '\\' then some ('\\', cs1)
          else if e = '/' then some ('/', cs1)
          else if e = 'b' then some (Char.ofNat 8, cs1)
          else if e = 'f' then some (Char.ofNat 12, cs1)
          else if e = 'n' then some ('\n', cs1)
          else if e = 'r' then some ('\r', cs1)
          else if e = 't' then some ('\t', cs1)
          else if e = 'u' then
            match cs1 with
            | h1 :: h2 :: h3 :: h4 :: cs2 =>
              match hexDigitVal h1, hexDigitVal h2,
                    hexDigitVal h3, hexDigitVal h4 with
              | some a, some b, some c2, some d =>
                  some (Char.ofNat (((a * 16 + b) * 16 + c2) * 16 + d), cs2)
              | _, _, _, _ => none
            | _ => none
          else none
        match dec with
        | none => none
        | some (ch, rest) =>
          match parseStringBody fuel rest with
          | some (content, rest1) => some (ch :: content, rest1)
          | none => none
    else if c.toNat < 32 then none
    else
      match parseStringBody fuel cs with
      | some (content, rest1) => some (c :: content, rest1)
      | none => none

def spanDigits (cs : List Char) : List Char × List Char :=
  (cs.takeWhile Char.isDigit, cs.dropWhile Char.isDigit)

/-- Lexeme of a JSON number (sign, integer part, optional fraction and
    exponent); returns the lexeme characters and the rest. -/
def parseNumberLexeme (cs : List Char) : Option (List Char × List Char) :=
  let (sign, cs1) :=
    match cs with
    | '-' :: rest => (['-'], rest)
    | _ => (([] : List Char), cs)
  let (intPart, cs2) := spanDigits cs1
  if intPart = [] then none
  else
    let (fracPart, cs3) :=
      match cs2 with
      | '.' :: rest =>
        let (ds, rest1) := spanDigits rest
        if ds = [] then (([] : List Char), cs2) else ('.' :: ds, rest1)
      | _ => (([] : List Char), cs2)
    let (expPart, cs4) :=
      match cs3 with
      | e :: rest =>
        if e = 'e' ∨ e = 'E' then
          let (sgn, rest1) :=
            match rest with
            | s :: rest2 => if s = '+' ∨ s = '-' then ([s], rest2)
                            else (([] : List Char), rest)
            | [] => (([] : List Char), rest)
          let (ds, rest2) := spanDigits rest1
          if ds = [] then (([] : List Char), cs3)
          else (e :: (sgn ++ ds), rest2)
        else (([] : List Char), cs3)
      | [] => (([] : List Char), cs3)
    some (sign ++ intPart ++ fracPart ++ expPart, cs4)

def startsWithChars (pre cs : List Char) : Bool :=
  decide (cs.take pre.length = pre)

/-- Grammar production being parsed: a value, the inside of an object,
    the member list of an object, the inside of an array, or the element
    list of an array.  A single fuel-structural function handles all
    productions so that concrete parses reduce definitionally. -/
inductive ParseMode where
  | value
  | objBody
  | members
  | arrBody
  | elements

inductive ParseOut where
  | val (v : JsonValue)
  | fields (fs : List (String × JsonValue))
  | elems (es : List JsonValue)

def parseJ : Nat → ParseMode → List Char → Option (ParseOut × List Char)
  | 0, _, _ => none
  | fuel + 1, ParseMode.value, cs =>
    match skipWs cs with
    | [] => none
    | c :: rest =>
      if c = '"' then
        match parseStringBody (rest.length + 1) rest with
        | some (content, rest1) =>
            some (ParseOut.val (JsonValue.str (String.mk content)), rest1)
        | none => none
      else if c = lbrace then
        parseJ fuel ParseMode.objBody rest
      else if c = '[' then
        parseJ fuel ParseMode.arrBody rest
      else if startsWithChars ['t', 'r', 'u', 'e'] (c :: rest) then
        some (ParseOut.val (JsonValue.bool true), (c :: rest).drop 4)
      else if startsWithChars ['f', 'a', 'l', 's', 'e'] (c :: rest) then
        some (ParseOut.val (JsonValue.bool false), (c :: rest).drop 5)
      else if startsWithChars ['n', 'u', 'l', 'l'] (c :: rest) then
        some (ParseOut.val JsonValue.null, (c :: rest).drop 4)
      else if c = '-' ∨ c.isDigit then
        match parseNumberLexeme (c :: rest) with
        | some (lexeme, rest1) =>
            some (ParseOut.val (JsonValue.num (String.mk lexeme)), rest1)
        | none => none
      else none
  | fuel + 1, ParseMode.objBody, cs =>
    match skipWs cs with
    | [] => none
    | c :: rest =>
      if c = rbrace then some (ParseOut.val (JsonValue.obj []), rest)
      else
        match parseJ fuel ParseMode.members (c :: rest) with
        | some (ParseOut.fields fs, rest1) =>
          match skipWs rest1 with
          | c1 :: rest2 =>
            if c1 = rbrace then some (ParseOut.val (JsonValue.obj fs), rest2)
            else none
          | [] => none
        | _ => none
  | fuel + 1, ParseMode.members, cs =>
    match skipWs cs with
    | c :: rest =>
      if c = '"' then
        match parseStringBody (rest.length + 1) rest with
        | some (key, rest1) =>
          match skipWs rest1 with
          | ':' :: rest2 =>
            match parseJ fuel ParseMode.value rest2 with
            | some (ParseOut.val v, rest3) =>
              match skipWs rest3 with
              | ',' :: rest4 =>
                match parseJ fuel ParseMode.members rest4 with
                | some (ParseOut.fields fs, rest5) =>
                    some (ParseOut.fields ((String.mk key, v) :: fs), rest5)
                | _ => none
              | other => some (ParseOut.fields [(String.mk key, v)], other)
            | _ => none
          | _ => none
        | none => none
      else none
    | [] => none
  | fuel + 1, ParseMode.arrBody, cs =>
    match skipWs cs with
    | [] => none
    | c :: rest =>
      if c = ']' then some (ParseOut.val (JsonValue.arr []), rest)
      else
        match parseJ fuel ParseMode.elements (c :: rest) with
        | some (ParseOut.elems es, rest1) =>
          match skipWs rest1 with
          | c1 :: rest2 =>
            if c1 = ']' then some (ParseOut.val (JsonValue.arr es), rest2)
            else none
          | [] => none
        | _ => none
  | fuel + 1, ParseMode.elements, cs =>
    match parseJ fuel ParseMode.value cs with
    | some (ParseOut.val v, rest) =>
      match skipWs rest with
      | ',' :: rest1 =>
        match parseJ fuel ParseMode.elements rest1 with
        | some (ParseOut.elems es, rest2) =>
            some (ParseOut.elems (v :: es), rest2)
        | _ => none
      | other => some (ParseOut.elems [v], other)
    | _ => none

/-- json.loads on a character list: parse one value, then require only
    whitespace to remain.  The fuel bound covers any call depth reachable
    on an input of this length (each recursive call consumes at least one
    input character). -/
def jsonLoadsChars (cs : List Char) : Option JsonValue :=
  match parseJ (2 * cs.length + 8) ParseMode.value cs with
  | some (ParseOut.val v, rest) => if skipWs rest = [] then some v else none
  | _ => none

/-- Lookup in a decoded JSON object; as in a Python dict built by
    json.loads, a repeated key keeps its last occurrence. -/
def dictGet (d : List (String × JsonValue)) (k : String) : Option JsonValue :=
  (d.reverse.find? (fun p => p.1 = k)).map (fun p => p.2)

/-- Python membership test `k in d` for a decoded JSON object. -/
def dictHasKey (d : List (String × JsonValue)) (k : String) : Bool :=
  d.any (fun p => p.1 = k)

/-- Python str() of a decoded JSON value, for flat (non-container)
    values as they appear in the f-strings of the source; containers
    never occur in those positions in any behaviour specified here. -/
def pyStr : JsonValue → String
  | JsonValue.null => "None"
  | JsonValue.bool true => "True"
  | JsonValue.bool false => "False"
  | JsonValue.num l => l
  | JsonValue.str s => s
  | JsonValue.arr _ => "<list>"
  | JsonValue.obj _ => "<dict>"

/- ===================== Generator agent (agent_core.py 155-272) ==== -/

structure CodeGeneratorAgent where
  name : String
  task_description : String
  current_action : String
  memories : List String
deriving DecidableEq, Repr

/-- CodeGeneratorAgent.add_memory (agent_core.py 185-189), cap 20. -/
def CodeGeneratorAgent.add_memory (g : CodeGeneratorAgent)
    (now : TimeHMS) (memory : String) : CodeGeneratorAgent :=
  { g with memories := addMemoryCapped 20 g.memories now memory }

/-- Outcome of the LM Studio HTTP call made by the generator
    (agent_core.py 217-268): a successful response carrying the raw
    response.text, a timeout, a requests error, or any other exception
    raised before the response text is examined. -/
inductive GenLLMOutcome where
  | success (response_text : String)
  | timeout
  | requestError (e : String)
  | otherError (e : String)
deriving DecidableEq, Repr

/-- How the generator examines a successful raw response
    (agent_core.py 226-255): strip, locate the first opening and the
    last closing brace with str.find / str.rfind, slice, json.loads,
    then require the keys language, description, code. -/
inductive GenParseOutcome where
  | parsed (d : List (String × JsonValue))
  | missingKeys
  | decodeError
  | noJson

def parseGeneratorResponse (response_text : String) : GenParseOutcome :=
  let cs := (pyStrip response_text).data
  let json_start := pyFind cs lbrace
  let json_end := pyRfind cs rbrace + 1
  if json_start ≠ -1 ∧ json_end ≠ -1 then
    let json_string := pySlice cs json_start.toNat json_end.toNat
    match jsonLoadsChars json_string with
    | some (JsonValue.obj generated_data) =>
      if dictHasKey generated_data "language"
          && dictHasKey generated_data "description"
          && dictHasKey generated_data "code" then
        GenParseOutcome.parsed generated_data
      else GenParseOutcome.missingKeys
    -- unreachable: the slice starts at an opening brace, so a
    -- successful parse is necessarily an object; kept for totality
    | some _ => GenParseOutcome.decodeError
    | none => GenParseOutcome.decodeError
  else GenParseOutcome.noJson

/-- The finally block of CodeGeneratorAgent.perform_task
    (agent_core.py 269-272). -/
def genFinally (g : CodeGeneratorAgent) : CodeGeneratorAgent :=
  if g.current_action = "Generating new code snippet..." then
    { g with current_action := "Code generation failed" }
  else g

/-- The f-string slice generated_data[desc][:50] in the success memory
    entry (agent_core.py 238).  Slicing a non-string raises TypeError in
    Python, which the enclosing handler turns into the unexpected-error
    path; the values produced by the LLM in every specified behaviour
    are strings.  A list value (which Python would slice) is not
    modelled and also maps to the TypeError path here. -/
def pySliceStrValue : Option JsonValue → Option String
  | some (JsonValue.str s) => some (pyTake s 50)
  | _ => none

/-- CodeGeneratorAgent.perform_task (agent_core.py 191-272).  The LLM
    endpoint is abstracted as the outcome of its call; the prompt
    construction has no observable effect beyond that call.  Returns the
    mutated agent and the parsed dictionary, or none on any failure. -/
def CodeGeneratorAgent.perform_task (g : CodeGeneratorAgent)
    (llm : GenLLMOutcome) (now : TimeHMS) :
    CodeGeneratorAgent × Option (List (String × JsonValue)) :=
  let g := { g with current_action := "Generating new code snippet..." }
  match llm with
  | GenLLMOutcome.success response_text =>
    match parseGeneratorResponse response_text with
    | GenParseOutcome.parsed generated_data =>
      match pySliceStrValue (dictGet generated_data "description") with
      | some descSnippet =>
        let g := g.add_memory now
          ("Generated " ++
            pyStr ((dictGet generated_data "language").getD JsonValue.null)
            ++ " code: " ++ descSnippet ++ "...")
        (genFinally { g with current_action := "Code generation successful" },
         some generated_data)
      | none =>
        -- TypeError raised while building the memory entry: caught by
        -- the generic handler (agent_core.py 265-268)
        (genFinally (g.add_memory now
          "Error: Unexpected generation error - TypeError"), none)
    | GenParseOutcome.missingKeys =>
        (genFinally (g.add_memory now "Error: Generated JSON missing keys."),
         none)
    | GenParseOutcome.decodeError =>
        (genFinally (g.add_memory now "Error: Failed to decode generated JSON."),
         none)
    | GenParseOutcome.noJson =>
        (genFinally (g.add_memory now "Error: Could not find JSON in LLM response."),
         none)
  | GenLLMOutcome.timeout =>
      (genFinally (g.add_memory now "Error: LLM request timed out."), none)
  | GenLLMOutcome.requestError e =>
      (genFinally (g.add_memory now ("Error: LLM connection failed - " ++ e)),
       none)
  | GenLLMOutcome.otherError e =>
      (genFinally (g.add_memory now ("Error: Unexpected generation error - " ++ e)),
       none)

/- ===================== Shared persisted records ==================== -/

/-- A task dictionary as held in the queue.  Fields are optional because
    the queue stores decoded JSON dictionaries: a missing field models a
    Python KeyError at a bracket access.  Tasks built by the scheduler
    or the submit endpoint populate every field (a JSON null language is
    collapsed with a missing language; the language field is never
    bracket-accessed on a dequeued task). -/
structure TaskData where
  task_id : Option String
  description : Option String
  context : Option String
  language : Option String
  submitted_by : Option String
  status : Option String
  submitted_time : Option String
deriving DecidableEq, Repr

/-- A result entry as built in run_simulation_step (main.py 131-138). -/
structure ResultEntry where
  task_id : String
  original_task : TaskData
  analysis_result : String
  analyzed_by : String
  status : String
  completion_time : String
deriving DecidableEq, Repr

/-- A failed-task audit record (redis_client.py 156-160,
    mongodb_client.py 90-94). -/
structure FailedInfo where
  failed_task : TaskData
  error : String
  failed_time : String
deriving DecidableEq, Repr

/-- Result of calling a queue-store operation: a returned value, or an
    exception that escaped to the caller. -/
inductive PyOutcome (α : Type) where
  | ok (a : α)
  | raised (e : String)
deriving DecidableEq, Repr

def PyOutcome.isOk {α : Type} : PyOutcome α → Bool
  | PyOutcome.ok _ => true
  | PyOutcome.raised _ => false

/- ===================== Redis-backed store (redis_client.py) ========
   The backend connection is abstracted by a fault flag: fault = true
   means every primitive Redis call raises RedisError.  Each wrapper
   below mirrors the try/except structure of its source function. -/

structure RedisState where
  task_queue : List TaskData
  results_store : List (String × ResultEntry)
  failed_tasks : List FailedInfo
deriving DecidableEq, Repr

/-- RPUSH on the task-queue list. -/
def redisPush (q : List TaskData) (t : TaskData) : List TaskData := q ++ [t]

/-- LPOP on the task-queue list. -/
def redisPop : List TaskData → Option TaskData × List TaskData
  | [] => (none, [])
  | t :: rest => (some t, rest)

/-- HSET: overwrite the field if present, else append it. -/
def hsetResult (store : List (String × ResultEntry)) (k : String)
    (v : ResultEntry) : List (String × ResultEntry) :=
  if store.any (fun p => p.1 = k) then
    store.map (fun p => if p.1 = k then (k, v) else p)
  else store ++ [(k, v)]

/-- HGET. -/
def hgetResult (store : List (String × ResultEntry)) (k : String) :
    Option ResultEntry :=
  (store.find? (fun p => p.1 = k)).map (fun p => p.2)

/-- add_task_to_queue (redis_client.py 41-51). -/
def rc_add_task_to_queue (fault : Bool) (st : RedisState)
    (task_data : TaskData) : PyOutcome (Bool × RedisState) :=
  if fault then PyOutcome.ok (false, st)
  else PyOutcome.ok (true, { st with task_queue := redisPush st.task_queue task_data })

/-- get_task_from_queue (redis_client.py 53-65). -/
def rc_get_task_from_queue (fault : Bool) (st : RedisState) :
    PyOutcome (Option TaskData × RedisState) :=
  if fault then PyOutcome.ok (none, st)
  else
    let pq := redisPop st.task_queue
    PyOutcome.ok (pq.1, { st with task_queue := pq.2 })

/-- get_queue_length (redis_client.py 67-74). -/
def rc_get_queue_length (fault : Bool) (st : RedisState) : PyOutcome Nat :=
  if fault then PyOutcome.ok 0
  else PyOutcome.ok st.task_queue.length

/-- peek_tasks (redis_client.py 76-91); LRANGE 0 (limit-1) for the
    positive limits used by the callers. -/
def rc_peek_tasks (fault : Bool) (st : RedisState) (limit : Nat) :
    PyOutcome (List TaskData) :=
  if fault then PyOutcome.ok []
  else PyOutcome.ok (st.task_queue.take limit)

/-- store_result (redis_client.py 95-105). -/
def rc_store_result (fault : Bool) (st : RedisState) (task_id : String)
    (result_data : ResultEntry) : PyOutcome (Bool × RedisState) :=
  if fault then PyOutcome.ok (false, st)
  else PyOutcome.ok (true,
    { st with results_store := hsetResult st.results_store task_id result_data })

/-- get_result (redis_client.py 107-117). -/
def rc_get_result (fault : Bool) (st : RedisState) (task_id : String) :
    PyOutcome (Option ResultEntry) :=
  if fault then PyOutcome.ok none
  else PyOutcome.ok (hgetResult st.results_store task_id)

/-- get_recent_results (redis_client.py 119-140): all stored values,
    stably sorted newest completion_time first, truncated. -/
def rc_get_recent_results (fault : Bool) (st : RedisState) (limit : Nat) :
    PyOutcome (List ResultEntry) :=
  if fault then PyOutcome.ok []
  else
    let all := st.results_store.map (fun p => p.2)
    let sorted := all.mergeSort (fun a b => b.completion_time ≤ a.completion_time)
    PyOutcome.ok (sorted.take limit)

/-- get_results_count (redis_client.py 142-149). -/
def rc_get_results_count (fault : Bool) (st : RedisState) : PyOutcome Nat :=
  if fault then PyOutcome.ok 0
  else PyOutcome.ok st.results_store.length

/-- add_failed_task (redis_client.py 152-167); the ambient
    datetime.now().isoformat() is passed explicitly. -/
def rc_add_failed_task (fault : Bool) (st : RedisState)
    (failed_task_data : TaskData) (error_message : String)
    (now_iso : String) : PyOutcome (Bool × RedisState) :=
  if fault then PyOutcome.ok (false, st)
  else
    let fs := st.failed_tasks ++ [⟨failed_task_data, error_message, now_iso⟩]
    PyOutcome.ok (true, { st with failed_tasks := fs })

/- ===================== Mongo-backed store (mongodb_client.py) ======
   Same fault abstraction: fault = true means every primitive PyMongo
   call raises.  Functions written without a try/except in the source
   let that exception escape (PyOutcome.raised). -/

structure MongoState where
  task_queue : List (TaskData × Nat)
  results_store : List (String × ResultEntry)
  failed_tasks : List FailedInfo
deriving DecidableEq, Repr

/-- One admissible behaviour of find_one_and_delete sorted by
    created_at ascending (mongodb_client.py 35): remove and return the
    first-inserted document among those holding the minimal created_at.
    MongoDB leaves the order of equal sort keys unspecified, so this
    function is only one resolution of that freedom; it is used where
    the choice among ties is not observable (the raising behaviour of
    claim C8).  Every statement about dequeue ORDER is made against the
    relational contract mongoCanDequeue below, which admits every
    backend choice; popEarliest_admissible shows this function realises
    one of them. -/
def popEarliest : List (TaskData × Nat) →
    Option (TaskData × Nat) × List (TaskData × Nat)
  | [] => (none, [])
  | x :: rest =>
    match popEarliest rest with
    | (none, _) => (some x, rest)
    | (some y, rest1) => if x.2 ≤ y.2 then (some x, rest) else (some y, x :: rest1)

/-- add_task_to_queue (mongodb_client.py 21-30); created_at = utcnow is
    passed explicitly. -/
def mc_add_task_to_queue (fault : Bool) (st : MongoState)
    (task_data : TaskData) (now : Nat) : PyOutcome (Bool × MongoState) :=
  if fault then PyOutcome.ok (false, st)
  else PyOutcome.ok (true, { st with task_queue := st.task_queue ++ [(task_data, now)] })

/-- get_task_from_queue (mongodb_client.py 32-42). -/
def mc_get_task_from_queue (fault : Bool) (st : MongoState) :
    PyOutcome (Option TaskData × MongoState) :=
  if fault then PyOutcome.ok (none, st)
  else
    let pq := popEarliest st.task_queue
    PyOutcome.ok (pq.1.map (fun x => x.1), { st with task_queue := pq.2 })

/-- get_queue_length (mongodb_client.py 44-46): no exception handler. -/
def mc_get_queue_length (fault : Bool) (st : MongoState) : PyOutcome Nat :=
  if fault then PyOutcome.raised "PyMongoError"
  else PyOutcome.ok st.task_queue.length

/-- peek_tasks (mongodb_client.py 48-53): no exception handler. -/
def mc_peek_tasks (fault : Bool) (st : MongoState) (limit : Nat) :
    PyOutcome (List TaskData) :=
  if fault then PyOutcome.raised "PyMongoError"
  else
    let sorted := st.task_queue.mergeSort (fun a b => a.2 ≤ b.2)
    PyOutcome.ok ((sorted.take limit).map (fun x => x.1))

/-- store_result (mongodb_client.py 56-66); completion_time = utcnow is
    passed explicitly; upsert keyed by task_id. -/
def mc_store_result (fault : Bool) (st : MongoState) (task_id : String)
    (result_data : ResultEntry) (now_iso : String) :
    PyOutcome (Bool × MongoState) :=
  if fault then PyOutcome.ok (false, st)
  else
    let result_data1 :=
      { result_data with task_id := task_id, completion_time := now_iso }
    let rs := hsetResult st.results_store task_id result_data1
    PyOutcome.ok (true, { st with results_store := rs })

/-- get_result (mongodb_client.py 68-73): no exception handler. -/
def mc_get_result (fault : Bool) (st : MongoState) (task_id : String) :
    PyOutcome (Option ResultEntry) :=
  if fault then PyOutcome.raised "PyMongoError"
  else PyOutcome.ok (hgetResult st.results_store task_id)

/-- get_recent_results (mongodb_client.py 75-80): no exception handler. -/
def mc_get_recent_results (fault : Bool) (st : MongoState) (limit : Nat) :
    PyOutcome (List ResultEntry) :=
  if fault then PyOutcome.raised "PyMongoError"
  else
    let all := st.results_store.map (fun p => p.2)
    let sorted := all.mergeSort (fun a b => b.completion_time ≤ a.completion_time)
    PyOutcome.ok (sorted.take limit)

/-- get_results_count (mongodb_client.py 82-84): no exception handler. -/
def mc_get_results_count (fault : Bool) (st : MongoState) : PyOutcome Nat :=
  if fault then PyOutcome.raised "PyMongoError"
  else PyOutcome.ok st.results_store.length

/-- add_failed_task (mongodb_client.py 87-100). -/
def mc_add_failed_task (fault : Bool) (st : MongoState)
    (failed_task_data : TaskData) (error_message : String)
    (now_iso : String) : PyOutcome (Bool × MongoState) :=
  if fault then PyOutcome.ok (false, st)
  else
    let fs := st.failed_tasks ++ [⟨failed_task_data, error_message, now_iso⟩]
    PyOutcome.ok (true, { st with failed_tasks := fs })

/- ===================== Scheduler / step engine (main.py) =========== -/

/-- One entry of simulation_state["agent_statuses"] (main.py 40-44). -/
structure AgentStatusInfo where
  status : String
  current_task_id : Option String
  cooldown_steps : Int
deriving DecidableEq, Repr

instance : Inhabited AgentStatusInfo := ⟨⟨"idle", none, 0⟩⟩

/-- One entry of simulation_state["agents"]: the two Python classes are
    unrelated, so isinstance dispatch becomes a closed sum. -/
inductive AgentObj where
  | analyzer (a : CybersecurityAgent)
  | generator (g : CodeGeneratorAgent)
deriving DecidableEq, Repr

/-- Python dict read of a key known to be present (agents and statuses
    share a fixed key set that never changes after startup). -/
def lookupStatus (m : List (String × AgentStatusInfo)) (n : String) :
    AgentStatusInfo :=
  match m.find? (fun p => p.1 = n) with
  | some p => p.2
  | none => default

/-- Python dict write to an existing key (position preserved). -/
def assocSet {α : Type} (m : List (String × α)) (n : String) (v : α) :
    List (String × α) :=
  m.map (fun p => if p.1 = n then (n, v) else p)

/-- The in-memory simulation_state (main.py 21-47) together with the
    Redis-held queue, results and failed tasks.  The simulated clock is
    a minute counter standing for the datetime value. -/
structure SimState where
  current_time : Int
  time_step_minutes : Int
  agents : List (String × AgentObj)
  agent_statuses : List (String × AgentStatusInfo)
  generator_cooldown : Int
  analyzer_cooldown : Int
  rs : RedisState
deriving DecidableEq, Repr

/-- Opaque rendering of the simulated datetime (isoformat). -/
def isoOfTime (t : Int) : String := "T+" ++ toString t

/-- Ambient inputs of one simulation step: the outcome each LLM call
    would produce (keyed by agent name; each agent calls at most once
    per step), the fresh uuid4 for a generated task, and the wall
    clock. -/
structure StepEnv where
  llm_analyzer : String → LLMOutcome
  llm_generator : String → GenLLMOutcome
  fresh_task_id : String → String
  wall_clock : TimeHMS
  wall_clock_iso : String

/-- A Python error escaping a dictionary access inside the step. -/
inductive PyErr where
  | keyError (k : String)
deriving DecidableEq, Repr

def pyErrStr : PyErr → String
  | PyErr.keyError k => "KeyError: " ++ k

/-- Cooldown update for one status entry (main.py 64-68). -/
def decayStatus (si : AgentStatusInfo) : AgentStatusInfo × Bool :=
  if si.cooldown_steps > 0 then
    let si1 := { si with cooldown_steps := si.cooldown_steps - 1 }
    if si1.cooldown_steps = 0 ∧ si1.status = "cooldown" then
      ({ si1 with status := "idle" }, true)
    else (si1, false)
  else (si, false)

/-- Phase 1 of run_simulation_step (main.py 61-68): update every
    cooldown counter, collecting the emitted events. -/
def updateCooldowns : List (String × AgentStatusInfo) →
    List (String × AgentStatusInfo) × List String
  | [] => ([], [])
  | (n, si) :: rest =>
    let (si1, fired) := decayStatus si
    let (rest1, evs) := updateCooldowns rest
    ((n, si1) :: rest1,
     (if fired then ["Agent " ++ n ++ " finished cooldown, now idle."] else [])
       ++ evs)

def optStrOrNone : Option String → String
  | some s => s
  | none => "None"

/-- The .get accesses building the task description and context from the
    generated dictionary (main.py 86-88); any present value is carried
    into the f-string or field as its textual form. -/
def jsonGetStrOr (d : List (String × JsonValue)) (k : String)
    (dflt : String) : String :=
  match dictGet d k with
  | some v => pyStr v
  | none => dflt

def jsonGetOptStr (d : List (String × JsonValue)) (k : String) :
    Option String :=
  match dictGet d k with
  | some JsonValue.null => none
  | some v => some (pyStr v)
  | none => none

/-- Body executed for one idle generator (main.py 75-101): mark it
    generating, run its capability, always drop it into cooldown, and on
    success enqueue the wrapped task; lines 100-101 re-apply the
    cooldown on both branches. -/
def processGenerator (env : StepEnv) (name : String) (g : CodeGeneratorAgent)
    (si : AgentStatusInfo) (generator_cooldown : Int) (rs : RedisState)
    (sim_time_iso : String) :
    CodeGeneratorAgent × AgentStatusInfo × RedisState × List String :=
  let si := { si with status := "generating" }
  let pr := g.perform_task (env.llm_generator name) env.wall_clock
  let g1 := pr.1
  let generated_data := pr.2
  let si := { si with status := "cooldown", cooldown_steps := generator_cooldown }
  match generated_data with
  | some gd =>
    let new_task_id := env.fresh_task_id name
    let new_task : TaskData :=
      { task_id := some new_task_id,
        description := some ("Analyze generated "
          ++ jsonGetStrOr gd "language" "unknown" ++ " code: "
          ++ jsonGetStrOr gd "description" "N/A"),
        context := some (jsonGetStrOr gd "code" ""),
        language := jsonGetOptStr gd "language",
        submitted_by := some name,
        status := some "pending",
        submitted_time := some sim_time_iso }
    -- rc.add_task_to_queue succeeds in the fault-free step model
    let rs := { rs with task_queue := redisPush rs.task_queue new_task }
    let evs := [name ++ " generated task " ++ new_task_id ++ " ("
      ++ optStrOrNone new_task.language ++ ") and added to queue."]
    let si := { si with status := "cooldown", cooldown_steps := generator_cooldown }
    (g1, si, rs, evs)
  | none =>
    let evs := [name ++ " failed to generate code."]
    let si := { si with status := "cooldown", cooldown_steps := generator_cooldown }
    (g1, si, rs, evs)

/-- Phase 2 of run_simulation_step (main.py 71-101): walk the agents
    dict, handing each idle generator to processGenerator. -/
def generationPhase (env : StepEnv) (generator_cooldown : Int)
    (sim_time_iso : String) :
    List (String × AgentObj) → List (String × AgentStatusInfo) → RedisState →
    List (String × AgentObj) × List (String × AgentStatusInfo) × RedisState
      × List String
  | [], statuses, rs => ([], statuses, rs, [])
  | (name, AgentObj.analyzer a) :: rest, statuses, rs =>
    let r := generationPhase env generator_cooldown sim_time_iso rest statuses rs
    ((name, AgentObj.analyzer a) :: r.1, r.2.1, r.2.2.1, r.2.2.2)
  | (name, AgentObj.generator g) :: rest, statuses, rs =>
    let si := lookupStatus statuses name
    if si.status = "idle" then
      let pg := processGenerator env name g si generator_cooldown rs sim_time_iso
      let statuses1 := assocSet statuses name pg.2.1
      let r := generationPhase env generator_cooldown sim_time_iso rest statuses1
        pg.2.2.1
      ((name, AgentObj.generator pg.1) :: r.1, r.2.1, r.2.2.1,
       pg.2.2.2 ++ r.2.2.2)
    else
      let r := generationPhase env generator_cooldown sim_time_iso rest statuses rs
      ((name, AgentObj.generator g) :: r.1, r.2.1, r.2.2.1, r.2.2.2)

/-- Body executed once a task has been popped for an idle analyzer
    (main.py 117-151).  The final component is the escaped exception, if
    any; all mutations made before the raise are kept, matching the
    in-place updates of the Python code. -/
def processAnalyzerTask (env : StepEnv) (name : String)
    (a : CybersecurityAgent) (si : AgentStatusInfo) (task_data : TaskData)
    (analyzer_cooldown : Int) (rs : RedisState) :
    CybersecurityAgent × AgentStatusInfo × RedisState × List String
      × Option PyErr :=
  match task_data.task_id with
  | none => (a, si, rs, [], some (PyErr.keyError "task_id"))
  | some task_id =>
    let si := { si with status := "analyzing", current_task_id := some task_id }
    match task_data.description with
    | none => (a, si, rs, [], some (PyErr.keyError "description"))
    | some desc =>
      match task_data.context with
      | none => (a, si, rs, [], some (PyErr.keyError "context"))
      | some ctx =>
        let pr := a.perform_task (env.llm_analyzer name) desc ctx env.wall_clock
        let a1 := pr.1
        let analysis_result := pr.2
        let result_entry : ResultEntry :=
          { task_id := task_id,
            original_task := task_data,
            analysis_result := analysis_result,
            analyzed_by := name,
            status := if pyStartsWith analysis_result "Error:"
              then "analysis_failed" else "completed",
            completion_time := env.wall_clock_iso }
        let store1 := hsetResult rs.results_store task_id result_entry
        let rs := { rs with results_store := store1 }
        let rsEvs :=
          if result_entry.status = "analysis_failed" then
            let ft := rs.failed_tasks ++ [⟨task_data, analysis_result, env.wall_clock_iso⟩]
            ({ rs with failed_tasks := ft },
             ["Agent " ++ name ++ " failed analysis for task " ++ task_id ++ "."])
          else
            (rs, ["Agent " ++ name ++ " completed analysis for task "
                    ++ task_id ++ "."])
        let rs := rsEvs.1
        let evs := rsEvs.2
        let si := { si with status := "cooldown", current_task_id := none, cooldown_steps := analyzer_cooldown }
        (a1, si, rs, evs, none)

/-- Phase 3 loop of run_simulation_step (main.py 108-156): walk the
    agents dict; each idle analyzer attempts one dequeue while the queue
    reports nonempty; an empty pop breaks out of the loop; an exception
    aborts the walk, keeping all mutations made so far. -/
def analysisLoop (env : StepEnv) (analyzer_cooldown : Int) :
    List (String × AgentObj) → List (String × AgentStatusInfo) → RedisState →
    List (String × AgentObj) × List (String × AgentStatusInfo) × RedisState
      × List String × Option PyErr
  | [], statuses, rs => ([], statuses, rs, [], none)
  | (name, AgentObj.generator g) :: rest, statuses, rs =>
    let r := analysisLoop env analyzer_cooldown rest statuses rs
    ((name, AgentObj.generator g) :: r.1, r.2.1, r.2.2.1, r.2.2.2.1, r.2.2.2.2)
  | (name, AgentObj.analyzer a) :: rest, statuses, rs =>
    let si := lookupStatus statuses name
    if si.status = "idle" ∧ rs.task_queue.length > 0 then
      match redisPop rs.task_queue with
      | (some task_data, q1) =>
        let rs1 := { rs with task_queue := q1 }
        let pa := processAnalyzerTask env name a si task_data analyzer_cooldown rs1
        let statuses1 := assocSet statuses name pa.2.1
        match pa.2.2.2.2 with
        | some e =>
          ((name, AgentObj.analyzer pa.1) :: rest, statuses1, pa.2.2.1,
           pa.2.2.2.1, some e)
        | none =>
          let r := analysisLoop env analyzer_cooldown rest statuses1 pa.2.2.1
          ((name, AgentObj.analyzer pa.1) :: r.1, r.2.1, r.2.2.1,
           pa.2.2.2.1 ++ r.2.2.2.1, r.2.2.2.2)
      | (none, _) =>
        -- queue found empty after the length check: break (main.py 153-156)
        ((name, AgentObj.analyzer a) :: rest, statuses, rs, [], none)
    else
      let r := analysisLoop env analyzer_cooldown rest statuses rs
      ((name, AgentObj.analyzer a) :: r.1, r.2.1, r.2.2.1, r.2.2.2.1, r.2.2.2.2)

/-- Summary dictionary returned by run_simulation_step (main.py 162-168). -/
structure StepSummary where
  step_time : String
  next_time : String
  queue_length : Nat
  results_count : Nat
  step_events : List String
deriving DecidableEq, Repr

/-- run_simulation_step (main.py 50-168).  Returns the final state (the
    Python function mutates the global state in place, so mutations made
    before an exception persist) and either the summary or the escaped
    exception; on an exception the clock is not advanced. -/
def run_simulation_step (env : StepEnv) (st : SimState) :
    SimState × Except PyErr StepSummary :=
  let current_time := st.current_time
  let (statuses1, evs1) := updateCooldowns st.agent_statuses
  let (agents2, statuses2, rs2, evs2) :=
    generationPhase env st.generator_cooldown (isoOfTime current_time)
      st.agents statuses1 st.rs
  let task_queue_length := rs2.task_queue.length
  let (agents3, statuses3, rs3, evs3, err) :=
    if task_queue_length > 0 then
      analysisLoop env st.analyzer_cooldown agents2 statuses2 rs2
    else (agents2, statuses2, rs2, [], none)
  match err with
  | some e =>
    ({ st with agents := agents3, agent_statuses := statuses3, rs := rs3 },
     Except.error e)
  | none =>
    let next_time := current_time + st.time_step_minutes
    let st1 := { st with agents := agents3, agent_statuses := statuses3, rs := rs3, current_time := next_time }
    (st1, Except.ok
      { step_time := isoOfTime current_time,
        next_time := isoOfTime st1.current_time,
        queue_length := rs3.task_queue.length,
        results_count := rs3.results_store.length,
        step_events := evs1 ++ evs2 ++ evs3 })

/-- Response of the step endpoint: the summary, or an HTTPException. -/
inductive StepResponse where
  | ok (s : StepSummary)
  | httpError (code : Nat) (detail : String)
deriving DecidableEq, Repr

/-- trigger_simulation_step (main.py 182-191): one step, with any
    exception caught at the step boundary and reported as a 500. -/
def trigger_simulation_step (env : StepEnv) (st : SimState) :
    SimState × StepResponse :=
  match run_simulation_step env st with
  | (st1, Except.ok s) => (st1, StepResponse.ok s)
  | (st1, Except.error e) =>
    (st1, StepResponse.httpError 500 ("Simulation step failed: " ++ pyErrStr e))

/-- The agent objects constructed at startup (main.py 24-38). -/
def initialAgents : List (String × AgentObj) :=
  [("PyScanner", AgentObj.analyzer
      { name := "PyScanner",
        role_description := "Analyze Python code snippets for common vulnerabilities (SQLi, XSS, Path Traversal, etc.).",
        current_action := "Initialized", memories := [], findings := [],
        current_task_id := none }),
   ("JavaScanner", AgentObj.analyzer
      { name := "JavaScanner",
        role_description := "Analyze Java code snippets for common vulnerabilities, focusing on SQLi and insecure object handling.",
        current_action := "Initialized", memories := [], findings := [],
        current_task_id := none }),
   ("CodeGen", AgentObj.generator
      { name := "CodeGen",
        task_description := "Generate code snippets for security analysis.",
        current_action := "Initialized", memories := [] })]

/-- simulation_state as initialised at startup (main.py 21-47), over a
    given queue-store content and status map. -/
def initialState (statuses : List (String × AgentStatusInfo))
    (rs : RedisState) : SimState :=
  { current_time := 0,
    time_step_minutes := 1,
    agents := initialAgents,
    agent_statuses := statuses,
    generator_cooldown := 2,
    analyzer_cooldown := 1,
    rs := rs }

def initialStatuses : List (String × AgentStatusInfo) :=
  [("PyScanner", ⟨"idle", none, 0⟩),
   ("JavaScanner", ⟨"idle", none, 0⟩),
   ("CodeGen", ⟨"idle", none, 0⟩)]

/- ===================== Helper lemmas =============================== -/

theorem hget_hset (store : List (String × ResultEntry)) (k : String)
    (v : ResultEntry) :
    hgetResult (hsetResult store k v) k = some v := by
  induction store with
  | nil => simp [hsetResult, hgetResult]
  | cons p rest ih =>
    by_cases hp : p.1 = k
    · have hany : (p :: rest).any (fun q => q.1 = k) = true := by
        simp [List.any_cons, hp]
      simp [hsetResult, hany, hgetResult, hp]
    · by_cases hr : rest.any (fun q => q.1 = k) = true
      · have hany : (p :: rest).any (fun q => q.1 = k) = true := by
          simp [List.any_cons, hr]
        have ih1 : hgetResult (rest.map (fun q => if q.1 = k then (k, v) else q)) k
            = some v := by
          have := ih
          rw [hsetResult, if_pos hr] at this
          exact this
        rw [hsetResult, if_pos hany]
        simp only [List.map_cons, if_neg hp]
        rw [hgetResult] at ih1 ⊢
        simpa [List.find?_cons, hp] using ih1
      · have hany : ¬ ((p :: rest).any (fun q => q.1 = k) = true) := by
          simp [List.any_cons, hp, hr]
        have ih1 : hgetResult (rest ++ [(k, v)]) k = some v := by
          have := ih
          rw [hsetResult, if_neg hr] at this
          exact this
        rw [hsetResult, if_neg hany]
        rw [hgetResult] at ih1 ⊢
        simpa [List.find?_cons, hp] using ih1

/- ===================== Claim theorems ============================== -/

/-- Claim C10: the entry stored by add_memory, on either agent kind, is
    the input string prefixed with a bracketed zero-padded wall-clock
    timestamp; the stored entry is never the raw string, and every
    retained entry is either an older stored entry or the new prefixed
    one. -/
theorem claim_c10 (a : CybersecurityAgent) (g : CodeGeneratorAgent)
    (now : TimeHMS) (memory : String) :
    (a.add_memory now memory).memories
        = addMemoryCapped 50 a.memories now memory
    ∧ (g.add_memory now memory).memories
        = addMemoryCapped 20 g.memories now memory
    ∧ stampMemory now memory
        = "[" ++ pad2 now.hour ++ ":" ++ pad2 now.minute ++ ":"
            ++ pad2 now.second ++ "] " ++ memory
    ∧ stampMemory now memory ≠ memory
    ∧ ∀ (cap : Nat) (ms : List String),
        ∀ e ∈ addMemoryCapped cap ms now memory,
          e ∈ ms ∨ e = stampMemory now memory := by
  refine ⟨rfl, rfl, by simp [stampMemory, TimeHMS.fmt, String.append_assoc], ?_, ?_⟩
  · intro h
    have hlen := congrArg String.length h
    have h1 : "[".length = 1 := rfl
    have h2 : "] ".length = 2 := rfl
    simp only [stampMemory, String.length_append, h1, h2] at hlen
    omega
  · intro cap ms e he
    unfold addMemoryCapped at he
    by_cases h : (ms ++ [stampMemory now memory]).length > cap
    · rw [if_pos h] at he
      have : e ∈ ms ++ [stampMemory now memory] := List.drop_subset _ _ he
      rcases List.mem_append.1 this with h1 | h1
      · exact Or.inl h1
      · exact Or.inr (List.mem_singleton.1 h1)
    · rw [if_neg h] at he
      rcases List.mem_append.1 he with h1 | h1
      · exact Or.inl h1
      · exact Or.inr (List.mem_singleton.1 h1)

/-- Claim C6 counterexample: with a cap of 2, appending "a", "b", "c"
    does not leave the retained log equal to ["b", "c"]: the stored
    entries carry the bracketed timestamp that add_memory adds at
    append time. -/
theorem claim_c6_counterexample :
    addMemoryCapped 2
      (addMemoryCapped 2 (addMemoryCapped 2 [] ⟨0, 0, 1⟩ "a") ⟨0, 0, 2⟩ "b")
      ⟨0, 0, 3⟩ "c" ≠ ["b", "c"] := by
  decide

/-- Claim C6 (amended): the memory log is append-only with FIFO
    eviction at the fixed cap, retaining the last entries in their
    stored (timestamp-prefixed) form; with a cap of 2, appending "a",
    "b", "c" leaves exactly the stored forms of "b" and "c"; the two
    agent kinds use this logic at caps 50 and 20 respectively. -/
theorem claim_c6_amended (t1 t2 t3 : TimeHMS) :
    addMemoryCapped 2
      (addMemoryCapped 2 (addMemoryCapped 2 [] t1 "a") t2 "b") t3 "c"
      = [stampMemory t2 "b", stampMemory t3 "c"]
    ∧ (∀ (a : CybersecurityAgent) (now : TimeHMS) (m : String),
        (a.add_memory now m).memories = addMemoryCapped 50 a.memories now m)
    ∧ (∀ (g : CodeGeneratorAgent) (now : TimeHMS) (m : String),
        (g.add_memory now m).memories = addMemoryCapped 20 g.memories now m) :=
  ⟨rfl, fun _ _ _ => rfl, fun _ _ _ => rfl⟩

/-- Claim C1: for a status entry in cooldown with a positive counter,
    the cooldown phase of a step decrements the counter by exactly 1,
    and the status flips to idle exactly on the step in which the
    counter reaches zero. -/
theorem claim_c1 (si : AgentStatusInfo)
    (hpos : si.cooldown_steps > 0) (hcool : si.status = "cooldown") :
    (decayStatus si).1.cooldown_steps = si.cooldown_steps - 1
    ∧ ((decayStatus si).1.status = "idle" ↔ si.cooldown_steps = 1) := by
  unfold decayStatus
  rw [if_pos hpos]
  dsimp only
  split
  next h =>
    obtain ⟨h0, -⟩ := h
    exact ⟨rfl, fun _ => by omega, fun _ => rfl⟩
  next h =>
    refine ⟨rfl, fun hidle => ?_, fun h2 => ?_⟩
    · have hidle1 : si.status = "idle" := hidle
      rw [hcool] at hidle1
      exact absurd hidle1 (by decide)
    · exact absurd ⟨by omega, hcool⟩ h

/-- Claim C1 witness at a concrete cooldown entry. -/
theorem claim_c1_witness :
    (decayStatus ⟨"cooldown", none, 2⟩).1.cooldown_steps = 2 - 1
    ∧ ((decayStatus ⟨"cooldown", none, 2⟩).1.status = "idle"
        ↔ (2 : Int) = 1) :=
  claim_c1 ⟨"cooldown", none, 2⟩ (by decide) rfl

/-- Claim C5: perform_task with an empty target context returns the
    fixed error string without consulting the LLM collaborator (the
    result is independent of the LLM outcome), records the skipped
    memory entry, and a step processing such a task stores a Result
    with status analysis_failed, appends a FailedTask record, and
    leaves the analyzer in cooldown with its task id cleared. -/
theorem claim_c5 (a : CybersecurityAgent) (llm llm2 : LLMOutcome)
    (desc : String) (now : TimeHMS) (env : StepEnv) (name tid : String)
    (si : AgentStatusInfo) (lang sb stt stime : Option String)
    (analyzer_cooldown : Int) (rs : RedisState) :
    a.perform_task llm desc "" now = a.perform_task llm2 desc "" now
    ∧ (a.perform_task llm desc "" now).2
        = "Error: No target context provided for analysis."
    ∧ (a.perform_task llm desc "" now).1.memories
        = addMemoryCapped 50 a.memories now
            "Skipped task: No target context provided."
    ∧ (let out := processAnalyzerTask env name a si
          ⟨some tid, some desc, some "", lang, sb, stt, stime⟩
          analyzer_cooldown rs
       out.2.2.2.2 = none
       ∧ hgetResult out.2.2.1.results_store tid
           = some ⟨tid, ⟨some tid, some desc, some "", lang, sb, stt, stime⟩,
               "Error: No target context provided for analysis.", name,
               "analysis_failed", env.wall_clock_iso⟩
       ∧ out.2.2.1.failed_tasks
           = rs.failed_tasks
             ++ [⟨⟨some tid, some desc, some "", lang, sb, stt, stime⟩,
                 "Error: No target context provided for analysis.",
                 env.wall_clock_iso⟩]
       ∧ out.2.1.status = "cooldown"
       ∧ out.2.1.current_task_id = none
       ∧ out.2.1.cooldown_steps = analyzer_cooldown) := by
  refine ⟨rfl, rfl, rfl, rfl, ?_, rfl, rfl, rfl, rfl⟩
  exact hget_hset rs.results_store tid _

/-- Claim C3: for a task processed by an analyzer in the analysis
    phase, the stored Result has status analysis_failed exactly when
    the analysis text begins with the failure marker (else completed), a
    FailedTask record is appended exactly in the failed case, and the
    agent ends in cooldown at the configured duration with its current
    task id cleared. -/
theorem claim_c3 (env : StepEnv) (name : String) (a : CybersecurityAgent)
    (si : AgentStatusInfo) (tid desc ctx : String)
    (lang sb stt stime : Option String) (analyzer_cooldown : Int)
    (rs : RedisState) :
    let task : TaskData := ⟨some tid, some desc, some ctx, lang, sb, stt, stime⟩
    let analysis_result :=
      (a.perform_task (env.llm_analyzer name) desc ctx env.wall_clock).2
    let out := processAnalyzerTask env name a si task analyzer_cooldown rs
    out.2.2.2.2 = none
    ∧ (∃ entry : ResultEntry,
        hgetResult out.2.2.1.results_store tid = some entry
        ∧ entry.analysis_result = analysis_result
        ∧ entry.analyzed_by = name
        ∧ entry.original_task = task
        ∧ (entry.status = "analysis_failed"
            ↔ pyStartsWith analysis_result "Error:" = true)
        ∧ (entry.status = "completed"
            ↔ ¬ pyStartsWith analysis_result "Error:" = true))
    ∧ out.2.2.1.failed_tasks
        = rs.failed_tasks
          ++ (if pyStartsWith analysis_result "Error:" then
                [⟨task, analysis_result, env.wall_clock_iso⟩] else [])
    ∧ out.2.1.status = "cooldown"
    ∧ out.2.1.current_task_id = none
    ∧ out.2.1.cooldown_steps = analyzer_cooldown := by
  dsimp only
  by_cases hb : pyStartsWith
      (a.perform_task (env.llm_analyzer name) desc ctx env.wall_clock).2
      "Error:" = true
  · refine ⟨rfl,
      ⟨⟨tid, ⟨some tid, some desc, some ctx, lang, sb, stt, stime⟩,
        (a.perform_task (env.llm_analyzer name) desc ctx env.wall_clock).2,
        name, "analysis_failed", env.wall_clock_iso⟩,
       ?_, rfl, rfl, rfl, by simp [hb], by simp [hb]⟩, ?_, rfl, rfl, rfl⟩
    · simp only [processAnalyzerTask, hb, if_true]
      exact hget_hset rs.results_store tid _
    · simp [processAnalyzerTask, hb]
  · refine ⟨rfl,
      ⟨⟨tid, ⟨some tid, some desc, some ctx, lang, sb, stt, stime⟩,
        (a.perform_task (env.llm_analyzer name) desc ctx env.wall_clock).2,
        name, "completed", env.wall_clock_iso⟩,
       ?_, rfl, rfl, rfl, by simp [hb], by simp [hb]⟩, ?_, rfl, rfl, rfl⟩
    · simp only [Bool.not_eq_true] at hb
      simp only [processAnalyzerTask, hb, Bool.false_eq_true, if_false]
      exact hget_hset rs.results_store tid _
    · simp only [Bool.not_eq_true] at hb
      simp [processAnalyzerTask, hb]

/-- Claim C8 counterexample: the Mongo-backed get_queue_length has no
    exception handler, so a backend failure escapes to the caller
    instead of being signalled through the return value. -/
theorem claim_c8_counterexample :
    mc_get_queue_length true ⟨[], [], []⟩ = PyOutcome.raised "PyMongoError" :=
  rfl

/-- Claim C8 (amended): every Redis-backed operation signals failure
    through its return value; of the Mongo-backed operations only
    enqueue, dequeue, store_result and record_failure do, while length,
    peek, get_result, recent_results and results count have no handler
    and propagate the backend exception. -/
theorem claim_c8_amended :
    (∀ (fault : Bool) (st : RedisState) (t : TaskData) (tid : String)
        (v : ResultEntry) (lim : Nat) (err iso : String),
      (rc_add_task_to_queue fault st t).isOk = true
      ∧ (rc_get_task_from_queue fault st).isOk = true
      ∧ (rc_get_queue_length fault st).isOk = true
      ∧ (rc_peek_tasks fault st lim).isOk = true
      ∧ (rc_store_result fault st tid v).isOk = true
      ∧ (rc_get_result fault st tid).isOk = true
      ∧ (rc_get_recent_results fault st lim).isOk = true
      ∧ (rc_get_results_count fault st).isOk = true
      ∧ (rc_add_failed_task fault st t err iso).isOk = true)
    ∧ (∀ (fault : Bool) (st : MongoState) (t : TaskData) (nowN : Nat)
        (tid : String) (v : ResultEntry) (err iso : String),
      (mc_add_task_to_queue fault st t nowN).isOk = true
      ∧ (mc_get_task_from_queue fault st).isOk = true
      ∧ (mc_store_result fault st tid v iso).isOk = true
      ∧ (mc_add_failed_task fault st t err iso).isOk = true)
    ∧ (∀ (st : MongoState) (tid : String) (lim : Nat),
      mc_get_queue_length true st = PyOutcome.raised "PyMongoError"
      ∧ mc_peek_tasks true st lim = PyOutcome.raised "PyMongoError"
      ∧ mc_get_result true st tid = PyOutcome.raised "PyMongoError"
      ∧ mc_get_recent_results true st lim = PyOutcome.raised "PyMongoError"
      ∧ mc_get_results_count true st = PyOutcome.raised "PyMongoError") := by
  refine ⟨?_, ?_, ?_⟩
  · intro fault st t tid v lim err iso
    cases fault <;> exact ⟨rfl, rfl, rfl, rfl, rfl, rfl, rfl, rfl, rfl⟩
  · intro fault st t nowN tid v err iso
    cases fault <;> exact ⟨rfl, rfl, rfl, rfl⟩
  · intro st tid lim
    exact ⟨rfl, rfl, rfl, rfl, rfl⟩

/- ===================== FIFO drains for claim C4 ==================== -/

/-- n successive enqueues through the Redis RPUSH core. -/
def redisEnqueueAll (ts : List TaskData) : List TaskData :=
  ts.foldl redisPush []

/-- n successive dequeues through the Redis LPOP core. -/
def redisDrain : Nat → List TaskData → List (Option TaskData) × List TaskData
  | 0, q => ([], q)
  | n + 1, q =>
    let pq := redisPop q
    let rest := redisDrain n pq.2
    (pq.1 :: rest.1, rest.2)

/-- n successive enqueues through the Mongo insert core, with their
    created_at stamps. -/
def mongoEnqueueAll (tts : List (TaskData × Nat)) : List (TaskData × Nat) :=
  tts.foldl (fun q x => q ++ [x]) []

theorem foldl_append_singleton {α : Type} :
    ∀ (ts acc : List α), ts.foldl (fun q x => q ++ [x]) acc = acc ++ ts := by
  intro ts
  induction ts with
  | nil => intro acc; simp
  | cons t rest ih => intro acc; simp [ih]

theorem redisEnqueueAll_eq (ts : List TaskData) : redisEnqueueAll ts = ts := by
  have h : redisEnqueueAll ts = ts.foldl (fun q x => q ++ [x]) [] := rfl
  rw [h, foldl_append_singleton]
  simp

theorem redisDrain_self :
    ∀ ts : List TaskData, redisDrain ts.length ts = (ts.map some, []) := by
  intro ts
  induction ts with
  | nil => rfl
  | cons t rest ih => simp [redisDrain, redisPop, ih]

/- ===================== Generator scenario for claim C2 ============= -/

/-- A raw LLM response carrying exactly the JSON object of Scenario B. -/
def genJsonPythonDC : String :=
  "\x7b\"language\": \"python\", \"description\": \"d\", \"code\": \"c\"\x7d"

def gdPythonDC : List (String × JsonValue) :=
  [("language", JsonValue.str "python"), ("description", JsonValue.str "d"),
   ("code", JsonValue.str "c")]

/-- Memory entry of a successful generation in Scenario B. -/
def genSuccessMsg : String :=
  "Generated " ++ "python" ++ " code: " ++ "d" ++ "..."

theorem perform_task_genJsonPythonDC (g : CodeGeneratorAgent) (now : TimeHMS) :
    g.perform_task (GenLLMOutcome.success genJsonPythonDC) now
      = ({ g with current_action := "Code generation successful", memories := addMemoryCapped 20 g.memories now genSuccessMsg },
         some gdPythonDC) := rfl

theorem processGenerator_genJsonPythonDC (env : StepEnv) (name : String)
    (g : CodeGeneratorAgent) (si : AgentStatusInfo)
    (generator_cooldown : Int) (rs : RedisState) (sim_time_iso : String)
    (hsuccess : env.llm_generator name
        = GenLLMOutcome.success genJsonPythonDC) :
    processGenerator env name g si generator_cooldown rs sim_time_iso
      = ({ g with current_action := "Code generation successful", memories := addMemoryCapped 20 g.memories env.wall_clock genSuccessMsg },
         { si with status := "cooldown", cooldown_steps := generator_cooldown },
         { rs with task_queue := rs.task_queue ++
            [⟨some (env.fresh_task_id name),
              some "Analyze generated python code: d",
              some "c", some "python", some name, some "pending",
              some sim_time_iso⟩] },
         [name ++ " generated task " ++ env.fresh_task_id name ++ " ("
           ++ "python" ++ ") and added to queue."]) := by
  unfold processGenerator
  rw [hsuccess, perform_task_genJsonPythonDC]
  rfl

theorem processGenerator_always_cooldown (env : StepEnv) (name : String)
    (g : CodeGeneratorAgent) (si : AgentStatusInfo)
    (generator_cooldown : Int) (rs : RedisState) (sim_time_iso : String) :
    (processGenerator env name g si generator_cooldown rs sim_time_iso).2.1
      = { si with status := "cooldown", cooldown_steps := generator_cooldown } := by
  unfold processGenerator
  dsimp only
  cases h : (g.perform_task (env.llm_generator name) env.wall_clock).2 with
  | none => rfl
  | some gd => rfl

/-- Claim C2: in the generation phase of a step over the three agents of
    the program, an idle generator is run exactly once: it always ends
    in cooldown at the configured duration, and when its LLM call
    returns the Scenario B object, exactly one new pending task is
    appended to the queue with context "c" and submitted_by equal to the
    generator name, the queue length grows by one, and the generator
    logs exactly one new memory entry. -/
theorem claim_c2 (env : StepEnv) (a1 a2 : CybersecurityAgent)
    (g : CodeGeneratorAgent) (s1 s2 s3 : AgentStatusInfo) (rs : RedisState)
    (generator_cooldown : Int) (sim_time_iso : String)
    (hidle : s3.status = "idle")
    (hsuccess : env.llm_generator "CodeGen"
        = GenLLMOutcome.success genJsonPythonDC) :
    let agents : List (String × AgentObj) :=
      [("PyScanner", AgentObj.analyzer a1),
       ("JavaScanner", AgentObj.analyzer a2),
       ("CodeGen", AgentObj.generator g)]
    let statuses : List (String × AgentStatusInfo) :=
      [("PyScanner", s1), ("JavaScanner", s2), ("CodeGen", s3)]
    let out := generationPhase env generator_cooldown sim_time_iso
      agents statuses rs
    (lookupStatus out.2.1 "CodeGen").status = "cooldown"
    ∧ (lookupStatus out.2.1 "CodeGen").cooldown_steps = generator_cooldown
    ∧ out.2.2.1.task_queue = rs.task_queue ++
        [⟨some (env.fresh_task_id "CodeGen"),
          some "Analyze generated python code: d",
          some "c", some "python", some "CodeGen", some "pending",
          some sim_time_iso⟩]
    ∧ out.2.2.1.task_queue.length = rs.task_queue.length + 1
    ∧ out.1 = [("PyScanner", AgentObj.analyzer a1),
        ("JavaScanner", AgentObj.analyzer a2),
        ("CodeGen", AgentObj.generator { g with current_action := "Code generation successful", memories := addMemoryCapped 20 g.memories env.wall_clock genSuccessMsg })]
    ∧ (∀ env2 : StepEnv,
        (lookupStatus (generationPhase env2 generator_cooldown sim_time_iso
            agents statuses rs).2.1 "CodeGen").status = "cooldown"
        ∧ (lookupStatus (generationPhase env2 generator_cooldown sim_time_iso
            agents statuses rs).2.1 "CodeGen").cooldown_steps
          = generator_cooldown) := by
  have hidle1 : (lookupStatus
      [("PyScanner", s1), ("JavaScanner", s2), ("CodeGen", s3)]
      "CodeGen").status = "idle" := hidle
  dsimp only
  refine ⟨?_, ?_, ?_, ?_, ?_, ?_⟩
  case _ =>
    simp only [generationPhase]
    rw [if_pos hidle1,
      processGenerator_genJsonPythonDC env "CodeGen" g _ generator_cooldown rs
        sim_time_iso hsuccess]
    try rfl
  case _ =>
    simp only [generationPhase]
    rw [if_pos hidle1,
      processGenerator_genJsonPythonDC env "CodeGen" g _ generator_cooldown rs
        sim_time_iso hsuccess]
    try rfl
  case _ =>
    simp only [generationPhase]
    rw [if_pos hidle1,
      processGenerator_genJsonPythonDC env "CodeGen" g _ generator_cooldown rs
        sim_time_iso hsuccess]
    try rfl
  case _ =>
    simp only [generationPhase]
    rw [if_pos hidle1,
      processGenerator_genJsonPythonDC env "CodeGen" g _ generator_cooldown rs
        sim_time_iso hsuccess]
    simp
  case _ =>
    simp only [generationPhase]
    rw [if_pos hidle1,
      processGenerator_genJsonPythonDC env "CodeGen" g _ generator_cooldown rs
        sim_time_iso hsuccess]
    try rfl
  case _ =>
    intro env2
    constructor
    · simp only [generationPhase]
      rw [if_pos hidle1,
        processGenerator_always_cooldown env2 "CodeGen" g _ generator_cooldown
          rs sim_time_iso]
      try rfl
    · simp only [generationPhase]
      rw [if_pos hidle1,
        processGenerator_always_cooldown env2 "CodeGen" g _ generator_cooldown
          rs sim_time_iso]
      try rfl

/-- A concrete step environment for the Scenario B witness. -/
def envC2 : StepEnv :=
  { llm_analyzer := fun _ => LLMOutcome.timeout,
    llm_generator := fun _ => GenLLMOutcome.success genJsonPythonDC,
    fresh_task_id := fun _ => "task-1",
    wall_clock := ⟨1, 2, 3⟩,
    wall_clock_iso := "W" }

/-- Claim C2 witness at the startup configuration. -/
theorem claim_c2_witness :
    (generationPhase envC2 2 "T"
      [("PyScanner", AgentObj.analyzer ⟨"PyScanner", "r1", "Initialized", [], [], none⟩),
       ("JavaScanner", AgentObj.analyzer ⟨"JavaScanner", "r2", "Initialized", [], [], none⟩),
       ("CodeGen", AgentObj.generator ⟨"CodeGen", "t", "Initialized", []⟩)]
      [("PyScanner", ⟨"idle", none, 0⟩), ("JavaScanner", ⟨"idle", none, 0⟩),
       ("CodeGen", ⟨"idle", none, 0⟩)]
      ⟨[], [], []⟩).2.2.1.task_queue
      = [⟨some "task-1", some "Analyze generated python code: d", some "c",
          some "python", some "CodeGen", some "pending", some "T"⟩]
    ∧ (lookupStatus (generationPhase envC2 2 "T"
      [("PyScanner", AgentObj.analyzer ⟨"PyScanner", "r1", "Initialized", [], [], none⟩),
       ("JavaScanner", AgentObj.analyzer ⟨"JavaScanner", "r2", "Initialized", [], [], none⟩),
       ("CodeGen", AgentObj.generator ⟨"CodeGen", "t", "Initialized", []⟩)]
      [("PyScanner", ⟨"idle", none, 0⟩), ("JavaScanner", ⟨"idle", none, 0⟩),
       ("CodeGen", ⟨"idle", none, 0⟩)]
      ⟨[], [], []⟩).2.1 "CodeGen").status = "cooldown" := by
  have h := claim_c2 envC2
    ⟨"PyScanner", "r1", "Initialized", [], [], none⟩
    ⟨"JavaScanner", "r2", "Initialized", [], [], none⟩
    ⟨"CodeGen", "t", "Initialized", []⟩
    ⟨"idle", none, 0⟩ ⟨"idle", none, 0⟩ ⟨"idle", none, 0⟩
    ⟨[], [], []⟩ 2 "T" rfl rfl
  exact ⟨h.2.2.1, h.1⟩

/- ===================== Boundary lemmas for claim C7 ================ -/

theorem pyFindAux_first (c : Char) :
    ∀ (pre rest : List Char), c ∉ pre → rest.head? = some c →
      pyFindAux c (pre ++ rest) = some pre.length := by
  intro pre
  induction pre with
  | nil =>
    intro rest _ hhead
    cases rest with
    | nil => simp at hhead
    | cons x xs =>
      simp only [List.head?_cons, Option.some.injEq] at hhead
      simp [pyFindAux, hhead]
  | cons x pre ih =>
    intro rest hpre hhead
    have hx : ¬ x = c := fun h => hpre (by simp [h])
    have hpre1 : c ∉ pre := fun h => hpre (by simp [h])
    simp [pyFindAux, hx, ih rest hpre1 hhead]

theorem pyRfindAux_none (c : Char) :
    ∀ l : List Char, c ∉ l → pyRfindAux c l = none := by
  intro l
  induction l with
  | nil => intro _; rfl
  | cons x xs ih =>
    intro h
    have hx : ¬ x = c := fun hh => h (by simp [hh])
    have hxs : c ∉ xs := fun hh => h (by simp [hh])
    simp [pyRfindAux, ih hxs, hx]

theorem pyRfindAux_last (c : Char) :
    ∀ (l post : List Char), c ∉ post → l.getLast? = some c →
      pyRfindAux c (l ++ post) = some (l.length - 1) := by
  intro l
  induction l with
  | nil => intro post _ hlast; simp at hlast
  | cons x xs ih =>
    intro post hpost hlast
    cases xs with
    | nil =>
      simp only [List.getLast?_singleton, Option.some.injEq] at hlast
      simp [pyRfindAux, pyRfindAux_none c post hpost, hlast]
    | cons y ys =>
      have hlast1 : (y :: ys).getLast? = some c := by
        rwa [List.getLast?_cons_cons] at hlast
      have hr := ih post hpost hlast1
      show (match pyRfindAux c ((y :: ys) ++ post) with
            | some n => some (n + 1)
            | none => if x = c then some 0 else none)
          = some ((x :: y :: ys).length - 1)
      rw [hr]
      simp

theorem pySlice_middle (pre core post : List Char) :
    pySlice (pre ++ core ++ post) pre.length (pre.length + core.length)
      = core := by
  unfold pySlice
  have h1 : pre.length + core.length = (pre ++ core).length := by
    simp
  rw [h1, List.take_left]
  exact List.drop_left pre core

theorem parseGeneratorResponse_parsed (response : String)
    (pre core post : List Char) (d : List (String × JsonValue))
    (hstrip : (pyStrip response).data = pre ++ core ++ post)
    (hpre : lbrace ∉ pre) (hpost : rbrace ∉ post)
    (hhead : core.head? = some lbrace) (hlast : core.getLast? = some rbrace)
    (hparse : jsonLoadsChars core = some (JsonValue.obj d))
    (hkeys : (dictHasKey d "language" && dictHasKey d "description"
        && dictHasKey d "code") = true) :
    parseGeneratorResponse response = GenParseOutcome.parsed d := by
  have hcorene : core ≠ [] := by
    intro h
    rw [h] at hhead
    simp at hhead
  have hcorelen : 1 ≤ core.length := by
    cases core with
    | nil => exact absurd rfl hcorene
    | cons x xs => simp
  have hheadapp : (core ++ post).head? = some lbrace := by
    cases core with
    | nil => exact absurd rfl hcorene
    | cons x xs =>
      simp only [List.head?_cons, Option.some.injEq] at hhead
      simp [hhead]
  have hfind : pyFind (pre ++ core ++ post) lbrace = (pre.length : Int) := by
    unfold pyFind
    rw [List.append_assoc, pyFindAux_first lbrace pre (core ++ post) hpre hheadapp]
  have hrfind : pyRfind (pre ++ core ++ post) rbrace
      = (((pre ++ core).length - 1 : Nat) : Int) := by
    unfold pyRfind
    have hlastapp : (pre ++ core).getLast? = some rbrace := by
      rw [List.getLast?_append_of_ne_nil pre hcorene]
      exact hlast
    rw [pyRfindAux_last rbrace (pre ++ core) post hpost hlastapp]
  unfold parseGeneratorResponse
  dsimp only
  rw [hstrip, hfind, hrfind]
  have hlen : (pre ++ core).length = pre.length + core.length := by simp
  have hcond : ((pre.length : Int) ≠ -1
      ∧ (((pre ++ core).length - 1 : Nat) : Int) + 1 ≠ -1) := by
    constructor <;> omega
  rw [if_pos hcond]
  have htonat1 : ((pre.length : Int)).toNat = pre.length := by omega
  have htonat2 : ((((pre ++ core).length - 1 : Nat) : Int) + 1).toNat
      = pre.length + core.length := by omega
  rw [htonat1, htonat2, pySlice_middle pre core post, hparse]
  simp [hkeys]

theorem perform_task_of_parsed (g : CodeGeneratorAgent) (now : TimeHMS)
    (response : String) (d : List (String × JsonValue)) (s : String)
    (hp : parseGeneratorResponse response = GenParseOutcome.parsed d)
    (hdesc : dictGet d "description" = some (JsonValue.str s)) :
    (g.perform_task (GenLLMOutcome.success response) now).2 = some d := by
  unfold CodeGeneratorAgent.perform_task
  dsimp only
  rw [hp]
  dsimp only
  rw [hdesc]
  rfl

theorem parsed_has_keys (response : String) (d : List (String × JsonValue))
    (h : parseGeneratorResponse response = GenParseOutcome.parsed d) :
    (dictHasKey d "language" && dictHasKey d "description"
      && dictHasKey d "code") = true := by
  unfold parseGeneratorResponse at h
  dsimp only at h
  split at h
  · split at h
    · split at h
      · cases h
        assumption
      · cases h
    · cases h
    · cases h
  · cases h

theorem perform_task_some_has_keys (g : CodeGeneratorAgent) (now : TimeHMS)
    (response : String) (d : List (String × JsonValue))
    (h : (g.perform_task (GenLLMOutcome.success response) now).2 = some d) :
    (dictHasKey d "language" && dictHasKey d "description"
      && dictHasKey d "code") = true := by
  unfold CodeGeneratorAgent.perform_task at h
  dsimp only at h
  cases hp : parseGeneratorResponse response with
  | parsed d0 =>
    rw [hp] at h
    dsimp only at h
    cases hs : pySliceStrValue (dictGet d0 "description") with
    | some snip =>
      rw [hs] at h
      dsimp only at h
      cases h
      exact parsed_has_keys response d hp
    | none =>
      rw [hs] at h
      cases h
  | missingKeys => rw [hp] at h; cases h
  | decodeError => rw [hp] at h; cases h
  | noJson => rw [hp] at h; cases h

theorem perform_task_none_logs (g : CodeGeneratorAgent) (now : TimeHMS)
    (response : String)
    (h : (g.perform_task (GenLLMOutcome.success response) now).2 = none) :
    ∃ msg, (g.perform_task (GenLLMOutcome.success response) now).1.memories
      = addMemoryCapped 20 g.memories now msg := by
  unfold CodeGeneratorAgent.perform_task
  dsimp only
  cases hp : parseGeneratorResponse response with
  | parsed d0 =>
    cases hs : pySliceStrValue (dictGet d0 "description") with
    | some snip =>
      exfalso
      unfold CodeGeneratorAgent.perform_task at h
      dsimp only at h
      rw [hp] at h
      dsimp only at h
      rw [hs] at h
      cases h
    | none =>
      refine ⟨"Error: Unexpected generation error - TypeError", ?_⟩
      dsimp only
      rw [hs]
      rfl
  | missingKeys => exact ⟨"Error: Generated JSON missing keys.", rfl⟩
  | decodeError => exact ⟨"Error: Failed to decode generated JSON.", rfl⟩
  | noJson => exact ⟨"Error: Could not find JSON in LLM response.", rfl⟩

/-- A raw response whose code value is a raw multi-line literal: the
    string contains an unescaped newline, which json.loads rejects. -/
def badGenResponse : String :=
  "\x7b\"language\": \"python\", \"description\": \"d\", \"code\": \"line1\nline2\"\x7d"

/-- The same response after the normalization the claim describes
    (the newline escaped into a proper JSON string). -/
def badGenResponseEscaped : String :=
  "\x7b\"language\": \"python\", \"description\": \"d\", \"code\": \"line1\\nline2\"\x7d"

/-- Claim C7 counterexample: on a response whose code value is a raw
    multi-line literal, the parser performs no normalization: the direct
    json.loads of the brace-delimited slice fails and the generator
    returns empty-result, although all three keys are present in the
    intended object and the escaped form of the same response parses. -/
theorem claim_c7_counterexample :
    parseGeneratorResponse badGenResponse = GenParseOutcome.decodeError
    ∧ ((⟨"CodeGen", "t", "Initialized", []⟩ : CodeGeneratorAgent).perform_task
        (GenLLMOutcome.success badGenResponse) ⟨0, 0, 0⟩).2 = none
    ∧ jsonLoadsChars badGenResponseEscaped.data
        = some (JsonValue.obj
            [("language", JsonValue.str "python"),
             ("description", JsonValue.str "d"),
             ("code", JsonValue.str "line1\nline2")]) :=
  ⟨rfl, rfl, rfl⟩

/-- Claim C7 (amended): the parser (a) locates the JSON object
    boundaries even when the object is surrounded by brace-free prose,
    (c) validates that language, description and code are present,
    returning the parsed dictionary exactly in that case and
    empty-result with a logged memory entry otherwise, and never raises
    past this boundary (the embedding is total); it does not normalize
    raw multi-line code literals, whose direct parse fails. -/
theorem claim_c7_amended :
    (∀ (response : String) (pre core post : List Char)
        (d : List (String × JsonValue)) (s : String)
        (g : CodeGeneratorAgent) (now : TimeHMS),
      (pyStrip response).data = pre ++ core ++ post →
      lbrace ∉ pre → rbrace ∉ post →
      core.head? = some lbrace → core.getLast? = some rbrace →
      jsonLoadsChars core = some (JsonValue.obj d) →
      (dictHasKey d "language" && dictHasKey d "description"
        && dictHasKey d "code") = true →
      dictGet d "description" = some (JsonValue.str s) →
      parseGeneratorResponse response = GenParseOutcome.parsed d
      ∧ (g.perform_task (GenLLMOutcome.success response) now).2 = some d)
    ∧ (∀ (g : CodeGeneratorAgent) (now : TimeHMS) (response : String)
        (d : List (String × JsonValue)),
      (g.perform_task (GenLLMOutcome.success response) now).2 = some d →
      (dictHasKey d "language" && dictHasKey d "description"
        && dictHasKey d "code") = true)
    ∧ (∀ (g : CodeGeneratorAgent) (now : TimeHMS) (response : String),
      (g.perform_task (GenLLMOutcome.success response) now).2 = none →
      ∃ msg, (g.perform_task (GenLLMOutcome.success response) now).1.memories
        = addMemoryCapped 20 g.memories now msg) := by
  refine ⟨?_, perform_task_some_has_keys, perform_task_none_logs⟩
  intro response pre core post d s g now hstrip hpre hpost hhead hlast hparse hkeys hdesc
  have hp := parseGeneratorResponse_parsed response pre core post d hstrip
    hpre hpost hhead hlast hparse hkeys
  exact ⟨hp, perform_task_of_parsed g now response d s hp hdesc⟩

/-- A response wrapping the Scenario B object in brace-free prose. -/
def proseGenResponse : String :=
  "x \x7b\"language\": \"python\", \"description\": \"d\", \"code\": \"c\"\x7d y"

/-- Claim C7 witness: the amended theorem applied to a concrete prose
    wrapped response. -/
theorem claim_c7_amended_witness :
    parseGeneratorResponse proseGenResponse = GenParseOutcome.parsed gdPythonDC
    ∧ ((⟨"CodeGen", "t", "Initialized", []⟩ : CodeGeneratorAgent).perform_task
        (GenLLMOutcome.success proseGenResponse) ⟨0, 0, 0⟩).2
      = some gdPythonDC :=
  claim_c7_amended.1 proseGenResponse "x ".data genJsonPythonDC.data " y".data
    gdPythonDC "d" ⟨"CodeGen", "t", "Initialized", []⟩ ⟨0, 0, 0⟩
    rfl (by decide) (by decide) rfl rfl rfl rfl rfl

/- ===================== Step-failure scenario for claim C9 ========== -/

/-- A queued dictionary with a task_id but no description key, as an
    external queue writer can produce. -/
def taskNoDesc : TaskData :=
  ⟨some "t1", none, some "ctx", none, some "User", some "pending", some "s"⟩

/-- Startup state whose queue holds that dictionary; the generator sits
    in cooldown so only the analyzers act. -/
def stC9 : SimState :=
  initialState
    [("PyScanner", ⟨"idle", none, 0⟩), ("JavaScanner", ⟨"idle", none, 0⟩),
     ("CodeGen", ⟨"cooldown", none, 5⟩)]
    ⟨[taskNoDesc], [], []⟩

def envC9 : StepEnv :=
  { llm_analyzer := fun _ => LLMOutcome.success "ok",
    llm_generator := fun _ => GenLLMOutcome.timeout,
    fresh_task_id := fun _ => "fresh",
    wall_clock := ⟨0, 0, 0⟩,
    wall_clock_iso := "W" }

/-- Claim C9 counterexample: the KeyError raised while handing the
    malformed task to PyScanner is reported as a 500, but PyScanner is
    left in status analyzing with a stale current_task_id, and a further
    step does not clear it. -/
theorem claim_c9_counterexample :
    (trigger_simulation_step envC9 stC9).2
      = StepResponse.httpError 500 "Simulation step failed: KeyError: description"
    ∧ lookupStatus (trigger_simulation_step envC9 stC9).1.agent_statuses
        "PyScanner" = ⟨"analyzing", some "t1", 0⟩
    ∧ lookupStatus (trigger_simulation_step envC9
          (trigger_simulation_step envC9 stC9).1).1.agent_statuses
        "PyScanner" = ⟨"analyzing", some "t1", 0⟩ :=
  ⟨rfl, rfl, rfl⟩

/-- Claim C9 (amended): any error escaping run_simulation_step is
    caught at the step boundary and reported to the caller as a 500
    with the state left exactly as the aborted step produced it; the
    in-memory status map is however not protected: in the concrete
    aborted step above an analyzer stays active with a stale task id
    across subsequent steps. -/
theorem claim_c9_amended :
    (∀ (env : StepEnv) (st st1 : SimState) (e : PyErr),
      run_simulation_step env st = (st1, Except.error e) →
      trigger_simulation_step env st
        = (st1, StepResponse.httpError 500
            ("Simulation step failed: " ++ pyErrStr e)))
    ∧ lookupStatus (trigger_simulation_step envC9 stC9).1.agent_statuses
        "PyScanner" = ⟨"analyzing", some "t1", 0⟩ := by
  constructor
  · intro env st st1 e h
    unfold trigger_simulation_step
    rw [h]
  · rfl

/-- Claim C9 witness: the amended boundary property applied at the
    concrete failing state. -/
theorem claim_c9_witness :
    trigger_simulation_step envC9 stC9
      = ((run_simulation_step envC9 stC9).1,
         StepResponse.httpError 500
           "Simulation step failed: KeyError: description") :=
  claim_c9_amended.1 envC9 stC9 (run_simulation_step envC9 stC9).1
    (PyErr.keyError "description") rfl

/-- Claim C10 witness: the retained-entry property applied at a
    concrete log and entry. -/
theorem claim_c10_witness :
    stampMemory ⟨1, 2, 3⟩ "m" ∈ addMemoryCapped 1 [] ⟨1, 2, 3⟩ "m"
    ∧ (stampMemory ⟨1, 2, 3⟩ "m" ∈ ([] : List String)
        ∨ stampMemory ⟨1, 2, 3⟩ "m" = stampMemory ⟨1, 2, 3⟩ "m") :=
  ⟨by decide,
   (claim_c10 ⟨"A", "r", "Initialized", [], [], none⟩
      ⟨"G", "t", "Initialized", []⟩ ⟨1, 2, 3⟩ "m").2.2.2.2 1 []
     (stampMemory ⟨1, 2, 3⟩ "m") (by decide)⟩

/- ===================== Mongo dequeue contract for claim C4 ========= -/

/-- The contract of find_one_and_delete(\x7b\x7d, sort=[("created_at", 1)])
    (mongodb_client.py 35): some document holding the minimal
    created_at is removed and returned.  MongoDB does not specify which
    document is chosen when several share that key, so the contract is
    a relation over every admissible choice. -/
def mongoCanDequeue (q : List (TaskData × Nat)) (t : TaskData × Nat)
    (q1 : List (TaskData × Nat)) : Prop :=
  ∃ l1 l2, q = l1 ++ t :: l2 ∧ q1 = l1 ++ l2 ∧ ∀ x ∈ q, t.2 ≤ x.2

/-- A complete sequence of admissible Mongo dequeues draining the
    queue, listing the returned documents in order. -/
inductive MongoDrains :
    List (TaskData × Nat) → List (TaskData × Nat) → Prop where
  | empty : MongoDrains [] []
  | step {q : List (TaskData × Nat)} {t : TaskData × Nat}
      {q1 out : List (TaskData × Nat)} :
      mongoCanDequeue q t q1 → MongoDrains q1 out → MongoDrains q (t :: out)

/-- The deterministic popEarliest function realises one admissible
    behaviour of the contract. -/
theorem popEarliest_admissible :
    ∀ (q : List (TaskData × Nat)) (t : TaskData × Nat)
      (q1 : List (TaskData × Nat)),
      popEarliest q = (some t, q1) → mongoCanDequeue q t q1 := by
  intro q
  induction q with
  | nil => intro t q1 h; cases h
  | cons x rest ih =>
    intro t q1 h
    cases hr : popEarliest rest with
    | mk o r2 =>
      cases o with
      | none =>
        have hrestnil : rest = [] := by
          cases rest with
          | nil => rfl
          | cons y ys =>
            exfalso
            revert hr
            show popEarliest (y :: ys) = (none, r2) → False
            cases hys : popEarliest ys with
            | mk o2 r3 =>
              cases o2 with
              | none =>
                intro hcontra
                rw [popEarliest, hys] at hcontra
                cases hcontra
              | some z =>
                intro hcontra
                rw [popEarliest, hys] at hcontra
                dsimp only at hcontra
                by_cases hle : y.2 ≤ z.2
                · rw [if_pos hle] at hcontra; cases hcontra
                · rw [if_neg hle] at hcontra; cases hcontra
        subst hrestnil
        rw [popEarliest] at h
        cases h
        exact ⟨[], [], rfl, rfl, by intro z hz; simp at hz; rw [hz]⟩
      | some y =>
        rw [popEarliest, hr] at h
        dsimp only at h
        have hy := ih y r2 hr
        rcases hy with ⟨l1, l2, hq, hq1, hmin⟩
        by_cases hle : x.2 ≤ y.2
        · rw [if_pos hle] at h
          cases h
          refine ⟨[], rest, rfl, rfl, ?_⟩
          intro z hz
          rcases List.mem_cons.1 hz with hz1 | hz2
          · rw [hz1]
          · exact le_trans hle (hmin z hz2)
        · rw [if_neg hle] at h
          cases h
          refine ⟨x :: l1, l2, by rw [hq]; rfl, by rw [hq1]; rfl, ?_⟩
          intro z hz
          rcases List.mem_cons.1 hz with hz1 | hz2
          · rw [hz1]; omega
          · exact hmin z hz2

/-- Under strictly increasing created_at stamps the minimal document is
    unique: every admissible dequeue returns the queue head. -/
theorem canDequeue_strict_head (q : List (TaskData × Nat))
    (t : TaskData × Nat) (q1 : List (TaskData × Nat))
    (hstrict : List.Chain' (fun x y => x.2 < y.2) q)
    (h : mongoCanDequeue q t q1) : q = t :: q1 := by
  rcases h with ⟨l1, l2, hq, hq1, hmin⟩
  cases l1 with
  | nil =>
    rw [hq, hq1]
    rfl
  | cons x l1t =>
    exfalso
    haveI : IsTrans (TaskData × Nat) (fun a b => a.2 < b.2) :=
      ⟨fun _ _ _ h1 h2 => lt_trans h1 h2⟩
    have hpw : List.Pairwise (fun a b => a.2 < b.2) q :=
      List.chain'_iff_pairwise.1 hstrict
    rw [hq] at hpw
    have hxlt : x.2 < t.2 := by
      rcases List.pairwise_append.1 hpw with ⟨-, -, hcross⟩
      exact hcross x (by simp) t (by simp)
    have hge : t.2 ≤ x.2 := hmin x (by rw [hq]; simp)
    omega

/-- Under strictly increasing stamps every complete admissible drain
    lists the documents in insertion order. -/
theorem mongoDrains_strict :
    ∀ (q out : List (TaskData × Nat)), MongoDrains q out →
      List.Chain' (fun x y => x.2 < y.2) q → out = q := by
  intro q out h
  induction h with
  | empty => intro _; rfl
  | step hcd hdrain ih =>
    intro hstrict
    rename_i q0 t0 q1 out0
    have hq := canDequeue_strict_head q0 t0 q1 hstrict hcd
    have htail : List.Chain' (fun x y => x.2 < y.2) q1 := by
      rw [hq] at hstrict
      exact hstrict.tail
    rw [hq, ih htail]

/-- Two distinct tasks inserted with equal created_at stamps. -/
def tieT1 : TaskData := ⟨some "T1", none, none, none, none, none, none⟩

def tieT2 : TaskData := ⟨some "T2", none, none, none, none, none, none⟩

/-- Claim C4 counterexample: with tied created_at stamps the
    Mongo-backed dequeue contract admits a complete drain returning the
    tasks out of insertion order, so the dequeues are not guaranteed to
    return T1..Tn in enqueue order. -/
theorem claim_c4_counterexample :
    MongoDrains [(tieT1, 5), (tieT2, 5)] [(tieT2, 5), (tieT1, 5)]
    ∧ [(tieT2, 5), (tieT1, 5)] ≠ [(tieT1, 5), (tieT2, 5)] := by
  constructor
  · exact MongoDrains.step
      ⟨[(tieT1, 5)], [], rfl, rfl, by decide⟩
      (MongoDrains.step ⟨[], [], rfl, rfl, by decide⟩ MongoDrains.empty)
  · decide

/-- Claim C4 (amended): n enqueues into an initially empty queue
    followed by n dequeues return T1..Tn in exactly that order in the
    Redis-backed store (RPUSH then LPOP) unconditionally; in the
    Mongo-backed store the insert appends stamped documents, and every
    drain admissible for find_one_and_delete sorted by created_at
    returns insertion order exactly when the stamps are strictly
    increasing - at tied stamps the backend may return either task
    first. -/
theorem claim_c4_amended (ts : List TaskData) (tq : List (TaskData × Nat))
    (hstrict : List.Chain' (fun x y => x.2 < y.2) tq) :
    redisDrain (redisEnqueueAll ts).length (redisEnqueueAll ts)
        = (ts.map some, [])
    ∧ mongoEnqueueAll tq = tq
    ∧ ∀ out, MongoDrains (mongoEnqueueAll tq) out → out = tq := by
  have henq : mongoEnqueueAll tq = tq := by
    have h : mongoEnqueueAll tq = tq.foldl (fun q x => q ++ [x]) [] := rfl
    rw [h, foldl_append_singleton]
    simp
  refine ⟨?_, henq, ?_⟩
  · rw [redisEnqueueAll_eq]
    exact redisDrain_self ts
  · intro out hdrain
    rw [henq] at hdrain
    exact mongoDrains_strict tq out hdrain hstrict

/-- Claim C4 witness at three concrete tasks with strictly increasing
    stamps, including a concrete admissible drain forced into FIFO
    order. -/
theorem claim_c4_amended_witness :
    redisDrain (redisEnqueueAll [tieT1, tieT2]).length
        (redisEnqueueAll [tieT1, tieT2])
      = ([some tieT1, some tieT2], [])
    ∧ mongoEnqueueAll [(tieT1, 5), (tieT2, 6)] = [(tieT1, 5), (tieT2, 6)]
    ∧ [(tieT1, 5), (tieT2, 6)] = [(tieT1, 5), (tieT2, 6)] := by
  have h := claim_c4_amended [tieT1, tieT2] [(tieT1, 5), (tieT2, 6)]
    (by simp [List.chain'_cons, tieT1, tieT2])
  have hdrain : MongoDrains (mongoEnqueueAll [(tieT1, 5), (tieT2, 6)])
      [(tieT1, 5), (tieT2, 6)] := by
    have henq : mongoEnqueueAll [(tieT1, 5), (tieT2, 6)]
        = [(tieT1, 5), (tieT2, 6)] := rfl
    rw [henq]
    exact MongoDrains.step ⟨[], [(tieT2, 6)], rfl, rfl, by decide⟩
      (MongoDrains.step ⟨[], [], rfl, rfl, by decide⟩ MongoDrains.empty)
  exact ⟨h.1, h.2.1, h.2.2 [(tieT1, 5), (tieT2, 6)] hdrain⟩
